import Mathlib

/-!
Shallow embedding of `modeling_publisher_maya/publishing.py`.

The repository implements a Maya publishing pipeline: a base class
`MyPublisher` (collect / verify / extract / implement driven by `main`) and a
subclass `ModelPublisher` overriding the four stage methods with
modeling-specific behaviour.  Maya/requests/filesystem collaborators are
modelled as explicit inputs (a `SceneEnv` record of query functions, a
transport outcome, a functional file system).  Python strings are Lean
`String`s; `str.split` on a one-character separator is modelled by a
structural char-list split so that every definition evaluates by `decide`
or `rfl`; Maya attribute values (floats) are modelled as rationals, which
agrees with the float comparisons at every input used here.
-/

namespace Publishing

/-- Model of Python `str.split(sep)` for a one-character separator,
accumulator form (structural recursion over the character list). -/
def splitCharAux (sep : Char) : List Char → List Char → List (List Char)
  | [], acc => [acc.reverse]
  | c :: rest, acc =>
    if c = sep then acc.reverse :: splitCharAux sep rest []
    else splitCharAux sep rest (c :: acc)

/-- Model of Python `s.split(sep)` for a one-character separator `sep`:
never returns an empty list. -/
def pySplit (sep : Char) (s : String) : List String :=
  (splitCharAux sep s.toList []).map (fun cs => String.mk cs)

/-- Model of Python `sep.join(parts)`. -/
def pyJoin (sep : String) : List String → String
  | [] => ""
  | [x] => x
  | x :: y :: xs => x ++ sep ++ pyJoin sep (y :: xs)

/-- Model of Python `lst[-1]` on a `str.split` result (never empty). -/
def pyLast (l : List String) : String := l.getLastD ""

/-- Model of Python `lst[0]` on a `str.split` result (never empty). -/
def pyHead (l : List String) : String := l.headD ""

/-- Model of `os.path.basename` for POSIX paths. -/
def basename (p : String) : String := pyLast (pySplit '/' p)

/-- Model of `pathlib.PurePath(p).parents[1]` for a normalized relative or
absolute POSIX path: drop the last two path components. -/
def parents1 (p : String) : String :=
  pyJoin "/" ((pySplit '/' p).dropLast.dropLast)

/-- `s.startswith("/")`, computed structurally on the character list. -/
def headIsSlash (s : String) : Bool :=
  match s.toList with
  | c :: _ => c = '/'
  | [] => false

/-- `s.endswith("/")`, computed structurally on the character list. -/
def lastIsSlash (s : String) : Bool :=
  match s.toList.getLast? with
  | some c => c = '/'
  | none => false

/-- Model of `os.path.join(a, b)` (POSIX, two arguments). -/
def pathJoin (a b : String) : String :=
  if headIsSlash b then b
  else if a = "" ∨ lastIsSlash a then a ++ b
  else a ++ "/" ++ b

/-- Model of `str(pathlib.Path(p).with_suffix(""))`: remove the extension of
the final path component (a leading-dot-only name such as `.bashrc` has no
suffix in pathlib and is kept unchanged). -/
def withSuffixEmpty (p : String) : String :=
  let segs := pySplit '/' p
  let nm := pyLast segs
  let parts := pySplit '.' nm
  let stem :=
    if parts.length ≤ 1 then nm
    else if pyHead parts = "" ∧ parts.length = 2 then nm
    else pyJoin "." parts.dropLast
  pyJoin "/" (segs.dropLast ++ [stem])

/-- The exception type raised by the pipeline (`PublishError`), one
constructor per raise site of `publishing.py`. -/
inductive PubError where
  | noSelection
  | sceneNaming (scene : String)
  | naming (offenders : List String)
  | ngons (faces : List String)
  | lamina (objs : List String)
  | transforms (objs : List String)
  | history (objs : List String)
  | noUVs (obj : String)
deriving DecidableEq

/-- Allowed `_`-token counts: `length = [3, 4]` in `MyPublisher.verify_assets`. -/
def lengthOK (n : Nat) : Bool := n = 3 ∨ n = 4

/-- `obj.split("|")[-1]`: the leaf name of a (possibly DAG-qualified) node. -/
def leafName (obj : String) : String := pyLast (pySplit '|' obj)

/-- `node_name.split("_")`: the `_`-tokens of the leaf name. -/
def nameParts (obj : String) : List String := pySplit '_' (leafName obj)

/-- The entries one loop iteration of `MyPublisher.verify_assets` appends to
`wrong_names` for object `obj`: once for a bad token count, and independently
once more for a first token different from the prefix. -/
def offenderContrib (pfx obj : String) : List String :=
  (if lengthOK (nameParts obj).length then [] else [obj]) ++
    (if pyHead (nameParts obj) ≠ pfx then [obj] else [])

/-- The full `wrong_names` list built by the loop of
`MyPublisher.verify_assets` over the selection. -/
def wrongNames (sel : List String) (pfx : String) : List String :=
  match sel with
  | [] => []
  | obj :: rest => offenderContrib pfx obj ++ wrongNames rest pfx

/-- How many times one object is appended by its own loop iteration. -/
def badCount (pfx obj : String) : Nat :=
  (if lengthOK (nameParts obj).length then 0 else 1) +
    (if pyHead (nameParts obj) = pfx then 0 else 1)

/-- `MyPublisher.verify_assets(self, prefix)`: scene-name token-count check,
then the per-object naming scan, failing once with the aggregated list. -/
def MyPublisher_verify_assets (scene : String) (sel : List String)
    (pfx : String) : Except PubError Unit :=
  if ¬ lengthOK (pySplit '_' scene).length then .error (.sceneNaming scene)
  else
    let w := wrongNames sel pfx
    if w ≠ [] then .error (.naming w) else .ok ()

/-- `MyPublisher.collect_assets`: fails when the selection is empty, else
derives `self.scene` from the scene file name (`name.split("/")[-1]`). -/
def MyPublisher_collect_assets (sel : List String) (sceneFile : String) :
    Except PubError String :=
  if sel.isEmpty then .error .noSelection
  else .ok (pyLast (pySplit '/' sceneFile))

/-- The Maya query functions the geometry checks consume, passed in
explicitly (`maya.cmds` is an external collaborator).  `historyOf` is
`cmds.listHistory(obj, pruneDagObjects=True)`, which returns `None`
(modelled as `none`) or a Python list (modelled as `some`);
`laminaFaces` and `ngonFaces` results are used only through Python
truthiness, so `None` and `[]` coincide and a plain list suffices.
Attribute values (Maya floats) are modelled as rationals. -/
structure SceneEnv where
  meshShapes : List String → List String
  ngonFaces : List String → List String
  laminaFaces : String → List String
  translateOf : String → ℚ × ℚ × ℚ
  rotateOf : String → ℚ × ℚ × ℚ
  scaleOf : String → ℚ × ℚ × ℚ
  historyOf : String → Option (List String)
  uvCountOf : String → Nat

/-- The literal tolerance `0.001` of `check_transforms`. -/
def tol : ℚ := mkRat 1 1000

/-- The translate condition of `check_transforms`:
`abs(t[0]) > 0.001 or abs(t[1]) > 0.001 or abs(t[2]) > 0.001`. -/
def translateBad (t : ℚ × ℚ × ℚ) : Bool :=
  decide (|t.1| > tol ∨ |t.2.1| > tol ∨ |t.2.2| > tol)

/-- The rotate condition of `check_transforms` (same shape as translate). -/
def rotateBad (r : ℚ × ℚ × ℚ) : Bool :=
  decide (|r.1| > tol ∨ |r.2.1| > tol ∨ |r.2.2| > tol)

/-- The scale condition of `check_transforms`:
`abs(s[i] - 1.0) > 0.001` on any axis. -/
def scaleBad (s : ℚ × ℚ × ℚ) : Bool :=
  decide (|s.1 - 1| > tol ∨ |s.2.1 - 1| > tol ∨ |s.2.2 - 1| > tol)

/-- One loop iteration of `ModelPublisher.check_transforms`: translate is
checked first, a hit records `"{obj} (Translate)"` and `continue`s (rotate
and scale are skipped); otherwise rotate, then scale. -/
def badTransform (env : SceneEnv) (obj : String) : Option String :=
  if translateBad (env.translateOf obj) then some (obj ++ " (Translate)")
  else if rotateBad (env.rotateOf obj) then some (obj ++ " (Rotate)")
  else if scaleBad (env.scaleOf obj) then some (obj ++ " (Scale)")
  else none

/-- `ModelPublisher.check_transforms`: scan every object, collect the
recorded channel strings, raise once at the end iff any were collected. -/
def check_transforms (env : SceneEnv) (sel : List String) :
    Except PubError Unit :=
  let bad_transforms := sel.filterMap (badTransform env)
  if ¬ bad_transforms.isEmpty then .error (.transforms bad_transforms)
  else .ok ()

/-- `ModelPublisher.check_topology`: resolve the selection to mesh shapes,
fail immediately on any n-gon faces; only otherwise scan all meshes for
lamina faces (`if lamina:` truthiness) and fail once with that list. -/
def check_topology (env : SceneEnv) (sel : List String) :
    Except PubError Unit :=
  let meshes := env.meshShapes sel
  let ngons := env.ngonFaces meshes
  if ¬ ngons.isEmpty then .error (.ngons ngons)
  else
    let lamina_objs := meshes.filter (fun obj => ¬ (env.laminaFaces obj).isEmpty)
    if ¬ lamina_objs.isEmpty then .error (.lamina lamina_objs)
    else .ok ()

/-- `ModelPublisher.check_history`: an object is collected iff
`cmds.listHistory(obj, pruneDagObjects=True) is not None`; one raise at the
end iff any were collected. -/
def check_history (env : SceneEnv) (sel : List String) :
    Except PubError Unit :=
  let bad_obj := sel.filter (fun obj => (env.historyOf obj).isSome)
  if ¬ bad_obj.isEmpty then .error (.history bad_obj)
  else .ok ()

/-- `ModelPublisher.check_uvs`: walk the selection in order and raise on the
first object whose UV count is zero; later objects are not queried. -/
def check_uvs (env : SceneEnv) : List String → Except PubError Unit
  | [] => .ok ()
  | obj :: rest =>
    if env.uvCountOf obj = 0 then .error (.noUVs obj)
    else check_uvs env rest

set_option linter.unusedVariables false in
/-- `ModelPublisher.verify_assets(self)`: sets `self.prefix = "geo"`
(overwriting whatever prefix the publisher was constructed with, here
`ctorPfx`), runs the base naming check with it, then topology, transforms,
history and UVs in that order, each aborting the rest on failure. -/
def ModelPublisher_verify_assets (ctorPfx : String) (scene : String)
    (sel : List String) (env : SceneEnv) : Except PubError Unit := do
  let selfPfx := "geo"
  MyPublisher_verify_assets scene sel selfPfx
  check_topology env sel
  check_transforms env sel
  check_history env sel
  check_uvs env sel

/-- Result of `ModelPublisher.extract_assets` (the path/version derivation;
the actual geometry write `cmds.file(..., es=True)` is external). -/
structure ExtractResult where
  scene_name : String
  version : String
  asset_dir : String
  obj_path : String
deriving DecidableEq

/-- `ModelPublisher.extract_assets`: `scene_dir = Path(scene_path).parents[1]`,
`scene_name = os.path.basename(scene_path).split(".")[0]`,
`version = scene_name.split("_")[-1]`,
`asset_dir = os.path.join(scene_dir, f"assets/{scene_name}/modeling/")`,
`obj_path = os.path.join(asset_dir, scene_name)`. -/
def ModelPublisher_extract_assets (scene_path : String) : ExtractResult :=
  let scene_dir := parents1 scene_path
  let scene_name := pyHead (pySplit '.' (basename scene_path))
  let version := pyLast (pySplit '_' scene_name)
  let asset_folder := "assets/" ++ scene_name ++ "/modeling/"
  let asset_dir := pathJoin scene_dir asset_folder
  let obj_path := pathJoin asset_dir scene_name
  { scene_name := scene_name, version := version,
    asset_dir := asset_dir, obj_path := obj_path }

/-- `os.makedirs(d, exist_ok=True)` on a model of the set of existing
directories: total (no error when the directory exists) and idempotent. -/
def makedirs (dirs : List String) (d : String) : List String :=
  if d ∈ dirs then dirs else d :: dirs

/-- One embed of the Discord message built by `discord_notification`. -/
structure DiscordEmbed where
  title : String
  description : String
  color : Nat
deriving DecidableEq

/-- The Discord message dictionary built by `discord_notification`. -/
structure DiscordMessage where
  username : String
  embeds : List DiscordEmbed
deriving DecidableEq

/-- The message template of `MyPublisher.discord_notification`, with the
f-string's literal whitespace (a trailing space, a newline and the
36-space indentation of the continuation line) reproduced exactly. -/
def discord_message (asset_name version department user : String) :
    DiscordMessage :=
  let green_color := 5763719
  { username := "Pipeline Bot",
    embeds := [{ title := "Asset Published Successfully.",
                 description :=
                   asset_name ++ " version: " ++ version ++ " for " ++
                     department ++ " \n                                    " ++
                     "has been successfully exported by " ++ user ++ ".",
                 color := green_color }] }

/-- Outcome of `requests.post` followed by `response.raise_for_status()`:
either the post went through with a 2xx status, or one of the two calls
raised a `requests.exceptions.RequestException`. -/
inductive TransportOutcome where
  | ok200
  | requestFailure (msg : String)
deriving DecidableEq

/-- The exception type that could escape `discord_notification` if the
transport failure were not caught. -/
inductive RequestError where
  | requestException (msg : String)
deriving DecidableEq

/-- `MyPublisher.discord_notification`: builds the message, posts it, and
catches `requests.exceptions.RequestException` (the failure is printed
only); the message is returned on every path. -/
def discord_notification (asset_name version department user : String)
    (transport : TransportOutcome) : Except RequestError DiscordMessage :=
  let message := discord_message asset_name version department user
  match transport with
  | .ok200 => .ok message
  | .requestFailure _ => .ok message

/-- A local clock reading, as consumed by
`datetime.datetime.now().strftime("%Y%m%d-%H%M%S")`. -/
structure DateTime where
  year : Nat
  month : Nat
  day : Nat
  hour : Nat
  minute : Nat
  second : Nat
deriving DecidableEq

/-- Decimal rendering of `n` left-padded with zeros to width `w`, the
semantics of a zero-padded `strftime` field. -/
def padZero (w : Nat) (n : Nat) : String :=
  String.mk (List.replicate (w - (Nat.repr n).length) '0') ++ Nat.repr n

/-- `now.strftime("%Y%m%d-%H%M%S")`. -/
def strftimeYmdHMS (d : DateTime) : String :=
  padZero 4 d.year ++ padZero 2 d.month ++ padZero 2 d.day ++ "-" ++
    padZero 2 d.hour ++ padZero 2 d.minute ++ padZero 2 d.second

/-- Python `str.upper()` on one character (ASCII range, which is all that
`uuid4().hex` can contain): the model of `Char` upper-casing used by
`uuid.uuid4().hex[:8].upper()`. -/
def pyUpperChar (c : Char) : Char :=
  if 97 ≤ c.toNat ∧ c.toNat ≤ 122 then Char.ofNat (c.toNat - 32) else c

/-- Python `s.upper()` (per-character, ASCII). -/
def pyUpper (s : String) : String := String.mk (s.toList.map pyUpperChar)

/-- Python `s[:8]`. -/
def pySlice8 (s : String) : String := String.mk (s.toList.take 8)

/-- `uuid.uuid4().hex[:8].upper()` applied to the 32-character lowercase
hex rendering `uuidHex` of the fresh UUID. -/
def uniqueHash (uuidHex : String) : String := pyUpper (pySlice8 uuidHex)

/-- The publish record dictionary `asset_data` of
`ModelPublisher.implement_assets`. -/
structure AssetData where
  id : String
  date : String
  name : String
  version : String
  path : String
  user : String
  description : String
deriving DecidableEq

/-- The key/value pairs of `asset_data`, in the dictionary's insertion
order. -/
def assetDataPairs (a : AssetData) : List (String × String) :=
  [("id", a.id), ("date", a.date), ("name", a.name), ("version", a.version),
   ("path", a.path), ("user", a.user), ("description", a.description)]

/-- JSON escaping of one character as `json.dump` performs it for the
characters that can occur here. -/
def jsonEscapeChar (c : Char) : String :=
  if c = '"' then "\\\""
  else if c = '\\' then "\\\\"
  else if c = '\n' then "\\n"
  else if c = '\t' then "\\t"
  else if c = '\r' then "\\r"
  else String.mk [c]

/-- JSON escaping of a string value. -/
def jsonEscape (s : String) : String :=
  String.join (s.toList.map jsonEscapeChar)

/-- One `    "key": "value"` line of the indented dump. -/
def jsonField (kv : String × String) : String :=
  "    \"" ++ jsonEscape kv.1 ++ "\": \"" ++ jsonEscape kv.2 ++ "\""

/-- `json.dump(asset_data, f, indent=4)` output for a flat dictionary of
strings: `\x7b`, one four-space-indented `"key": "value"` line per field
separated by commas, `\x7d`. -/
def renderAssetJson (a : AssetData) : String :=
  "\x7b\n" ++ pyJoin ",\n" ((assetDataPairs a).map jsonField) ++ "\n\x7d"

/-- Writing one file into a functional model of the file system
(`open(db_path, "w")` + `json.dump`): last write wins. -/
def fsWrite (fs : String → Option String) (p c : String) :
    String → Option String :=
  fun q => if q = p then some c else fs q

/-- The sidecar path of `MyPublisher.csv_publisher`:
`str(pathlib.Path(self.obj_path).with_suffix("")) + "_metadata.json"`. -/
def dbPath (obj_path : String) : String :=
  withSuffixEmpty obj_path ++ "_metadata.json"

/-- `MyPublisher.csv_publisher`: serialize `asset_data` to the sidecar path
with `indent=4` and return `asset_data`. -/
def csv_publisher (obj_path : String) (fs : String → Option String)
    (asset_data : AssetData) : (String → Option String) × AssetData :=
  (fsWrite fs (dbPath obj_path) (renderAssetJson asset_data), asset_data)

/-- `ModelPublisher.implement_assets`: best-effort Discord notification
(department `"modeling"`), then build `asset_data` from the publish state
(`unique_hash = uuid4().hex[:8].upper()`, `timestamp = strftime(...)`) and
persist it through `csv_publisher`.  An uncaught exception in
`discord_notification` would propagate through the monadic bind. -/
def ModelPublisher_implement_assets (scene_name version obj_path user : String)
    (description : String) (now : DateTime) (uuidHex : String)
    (transport : TransportOutcome) (fs : String → Option String) :
    Except RequestError ((String → Option String) × AssetData) := do
  let _message ← discord_notification scene_name version "modeling" user transport
  let timestamp := strftimeYmdHMS now
  let unique_hash := uniqueHash uuidHex
  let asset_data : AssetData :=
    { id := unique_hash, date := timestamp, name := scene_name,
      version := version, path := obj_path, user := user,
      description := description }
  pure (csv_publisher obj_path fs asset_data)

/-- Positional-parameter count (beyond `self`) and default count of a
Python method, for the `TypeError` arity rule: a call with `k` positional
arguments succeeds iff `nparams - ndefaults ≤ k ≤ nparams`. -/
structure PySig where
  nparams : Nat
  ndefaults : Nat
deriving DecidableEq

/-- Python's positional-arity acceptance test. -/
def acceptsArgs (sig : PySig) (k : Nat) : Bool :=
  decide (sig.nparams - sig.ndefaults ≤ k ∧ k ≤ sig.nparams)

/-- `def verify_assets(self)` in `ModelPublisher`. -/
def ModelPublisher_verify_assets_sig : PySig := ⟨0, 0⟩

/-- `def extract_assets(self, output)` in `ModelPublisher`. -/
def ModelPublisher_extract_assets_sig : PySig := ⟨1, 0⟩

/-- `def implement_assets(self, description="")` in `ModelPublisher`. -/
def ModelPublisher_implement_assets_sig : PySig := ⟨1, 1⟩

/-- The four CVEI stages. -/
inductive Stage where
  | collect
  | verify
  | extract
  | implement
deriving DecidableEq

/-- What `MyPublisher.main` ends with: success, a re-raised `PublishError`,
or a re-raised `TypeError` from a stage-method call whose arity does not
match. -/
inductive MainOutcome where
  | success
  | publishFailed (e : PubError)
  | typeErrorAt (s : Stage)
deriving DecidableEq

/-- `MyPublisher.main` running on a `ModelPublisher` instance (dynamic
dispatch selects the `ModelPublisher` overrides): collect, then
`self.verify_assets(self.prefix)` (one positional argument), then
`self.extract_assets()` and `self.implement_assets()` (no arguments).
Each call is guarded by Python's arity rule; an arity mismatch raises
`TypeError`, which `main` re-raises.  The second component lists the
stages that completed.  The branch past the extract guard is unreachable:
both guards are decidably false for the `ModelPublisher` signatures. -/
def MyPublisher_main (ctorPfx : String) (sel : List String)
    (sceneFile : String) (env : SceneEnv) : MainOutcome × List Stage :=
  match MyPublisher_collect_assets sel sceneFile with
  | .error e => (.publishFailed e, [])
  | .ok scene =>
    if acceptsArgs ModelPublisher_verify_assets_sig 1 then
      match ModelPublisher_verify_assets ctorPfx scene sel env with
      | .error e => (.publishFailed e, [.collect])
      | .ok () =>
        if acceptsArgs ModelPublisher_extract_assets_sig 0 then
          (.success, [.collect, .verify, .extract, .implement])
        else (.typeErrorAt .extract, [.collect, .verify])
    else (.typeErrorAt .verify, [.collect])

/-! Concrete scene environments used to instantiate the theorems. -/

/-- A scene in which every check passes: no meshes report n-gons or lamina
faces, transforms are frozen, history is clean, every object has UVs. -/
def envAllGood : SceneEnv where
  meshShapes := fun sel => sel
  ngonFaces := fun _ => []
  laminaFaces := fun _ => []
  translateOf := fun _ => (0, 0, 0)
  rotateOf := fun _ => (0, 0, 0)
  scaleOf := fun _ => (1, 1, 1)
  historyOf := fun _ => none
  uvCountOf := fun _ => 4

/-- `envAllGood` except that object `"A"` has no UVs while `"B"` has five. -/
def envUV : SceneEnv :=
  { envAllGood with uvCountOf := fun obj => if obj = "A" then 0 else 5 }

/-- `envAllGood` except that the history query returns an empty Python list
(not `None`) for every object. -/
def envEmptyHistory : SceneEnv :=
  { envAllGood with historyOf := fun _ => some [] }

/-- `envAllGood` except that `"pSphere1"` reports one history node. -/
def envHist : SceneEnv :=
  { envAllGood with
    historyOf := fun obj => if obj = "pSphere1" then some ["polySphere1"] else none }

/-! ## Theorems -/

/-- **C5.** The UV check visits objects in selection order, fails
immediately on the first object whose UV count is zero naming only that
object (the objects after it — `post`, with arbitrary UV counts since `env`
is arbitrary — are never evaluated), and succeeds iff every object has a
nonzero UV count. -/
theorem check_uvs_c5 (env : SceneEnv) :
    (∀ sel, check_uvs env sel = .ok () ↔ ∀ o ∈ sel, env.uvCountOf o ≠ 0)
    ∧ (∀ pre a post, (∀ o ∈ pre, env.uvCountOf o ≠ 0) → env.uvCountOf a = 0 →
        check_uvs env (pre ++ a :: post) = .error (.noUVs a)) := by
  constructor
  · intro sel
    induction sel with
    | nil => simp [check_uvs]
    | cons o rest ih =>
      by_cases h : env.uvCountOf o = 0
      · simp [check_uvs, h]
      · simp [check_uvs, h, ih]
  · intro pre a post hpre ha
    induction pre with
    | nil => simp [check_uvs, ha]
    | cons o rest ih =>
      have ho : env.uvCountOf o ≠ 0 := hpre o (by simp)
      simp only [List.cons_append, check_uvs, ho, if_neg ho]
      exact ih (fun x hx => hpre x (List.mem_cons_of_mem _ hx))

/-- Witness for C5: with objects `[A(uv=0), B(uv=5)]` the check fails
citing only `A`. -/
theorem check_uvs_c5_witness :
    check_uvs envUV ["A", "B"] = .error (.noUVs "A") :=
  (check_uvs_c5 envUV).2 [] "A" ["B"] (by simp) (by decide)

/-- **C7, counterexample.** The claim says an object is flagged iff its
queried history is non-empty, but `check_history` tests
`history is not None`: when `cmds.listHistory` returns an empty Python
list, the queried history is empty yet the object is still flagged. -/
theorem check_history_c7_counterexample :
    envEmptyHistory.historyOf "pCube1" = some []
    ∧ check_history envEmptyHistory ["pCube1"] = .error (.history ["pCube1"]) :=
  ⟨rfl, rfl⟩

/-- **C7, amended.** The history check flags an object iff the history
query returns a non-`None` result (an empty-sequence result is also
flagged), aggregates the flagged objects across the whole selection in
order, and fails exactly once with that full list iff at least one object
was flagged, succeeding otherwise. -/
theorem check_history_c7 (env : SceneEnv) (sel : List String) :
    (check_history env sel = .ok () ↔ ∀ o ∈ sel, env.historyOf o = none)
    ∧ ((∃ o ∈ sel, (env.historyOf o).isSome) →
        check_history env sel
          = .error (.history (sel.filter (fun o => (env.historyOf o).isSome)))) := by
  by_cases hb : sel.filter (fun o => (env.historyOf o).isSome) = []
  · have hok : check_history env sel = .ok () := by
      simp [check_history, hb]
    refine ⟨?_, ?_⟩
    · simp only [hok, true_iff]
      intro o ho
      have := List.filter_eq_nil_iff.mp hb o ho
      simpa [Option.not_isSome_iff_eq_none] using this
    · rintro ⟨o, ho, hsome⟩
      exact absurd (List.filter_eq_nil_iff.mp hb o ho) (by simp [hsome])
  · have herr : check_history env sel
        = .error (.history (sel.filter (fun o => (env.historyOf o).isSome))) := by
      simp [check_history, List.isEmpty_iff, hb]
    refine ⟨?_, fun _ => herr⟩
    rw [herr]
    constructor
    · intro hc; cases hc
    · intro hall
      exact absurd (List.filter_eq_nil_iff.mpr (fun o ho => by simp [hall o ho])) hb

/-- Witness for the amended C7: a selection whose first object reports one
history node is rejected with exactly that object. -/
theorem check_history_c7_witness :
    check_history envHist ["pSphere1", "pPlane1"] = .error (.history ["pSphere1"]) := by
  have h := (check_history_c7 envHist ["pSphere1", "pPlane1"]).2
    ⟨"pSphere1", by simp, by decide⟩
  exact h

/-- **C8.** The topology check fails immediately with the n-gon list when
any n-gons exist — the lamina scan never runs, witnessed by the conclusion
holding for every environment `env'` that agrees on `meshShapes` and
`ngonFaces` but has arbitrary `laminaFaces` — and only when no n-gons
exist does it scan all meshes, aggregating the meshes with lamina faces and
failing once iff there is at least one. -/
theorem check_topology_c8 (env : SceneEnv) (sel : List String) :
    (env.ngonFaces (env.meshShapes sel) ≠ [] →
      ∀ env' : SceneEnv, env'.meshShapes = env.meshShapes →
        env'.ngonFaces = env.ngonFaces →
        check_topology env' sel = .error (.ngons (env.ngonFaces (env.meshShapes sel))))
    ∧ (env.ngonFaces (env.meshShapes sel) = [] →
        (check_topology env sel = .ok ()
          ↔ ∀ m ∈ env.meshShapes sel, env.laminaFaces m = [])
        ∧ ((∃ m ∈ env.meshShapes sel, env.laminaFaces m ≠ []) →
            check_topology env sel
              = .error (.lamina ((env.meshShapes sel).filter
                  (fun obj => ¬ (env.laminaFaces obj).isEmpty))))) := by
  constructor
  · intro hng env' hm hn
    simp [check_topology, hm, hn, List.isEmpty_iff, hng]
  · intro hng
    by_cases hl : (env.meshShapes sel).filter (fun obj => ¬ (env.laminaFaces obj).isEmpty) = []
    · have hok : check_topology env sel = .ok () := by
        simp only [check_topology]
        rw [hng, hl]
        simp
      refine ⟨?_, ?_⟩
      · simp only [hok, true_iff]
        intro m hm
        have := List.filter_eq_nil_iff.mp hl m hm
        simpa [List.isEmpty_iff] using this
      · rintro ⟨m, hm, hlam⟩
        have := List.filter_eq_nil_iff.mp hl m hm
        simp [List.isEmpty_iff] at this
        exact absurd this hlam
    · have herr : check_topology env sel
          = .error (.lamina ((env.meshShapes sel).filter
              (fun obj => ¬ (env.laminaFaces obj).isEmpty))) := by
        simp only [check_topology]
        rw [hng]
        simp [List.isEmpty_iff, hl]
        have hex := hl
        rw [List.filter_eq_nil_iff] at hex
        push_neg at hex
        obtain ⟨m, hm, hp⟩ := hex
        exact ⟨m, hm, by simpa [List.isEmpty_iff] using hp⟩
      refine ⟨?_, fun _ => herr⟩
      rw [herr]
      constructor
      · intro hc; cases hc
      · intro hall
        refine absurd (List.filter_eq_nil_iff.mpr fun m hm => ?_) hl
        simp [List.isEmpty_iff, hall m hm]

/-- `envAllGood` except that every mesh reports one n-gon face and one
lamina face. -/
def envNgon : SceneEnv :=
  { envAllGood with
    ngonFaces := fun _ => ["pCube1.f[5]"],
    laminaFaces := fun _ => ["pCube1.f[2]"] }

/-- Witness for C8: with an n-gon present the check reports the n-gons,
even though every mesh also reports lamina faces. -/
theorem check_topology_c8_witness :
    check_topology envNgon ["pCube1"] = .error (.ngons ["pCube1.f[5]"]) :=
  (check_topology_c8 envNgon ["pCube1"]).1 (by decide) envNgon rfl rfl

/-- The number of times one loop iteration of the naming scan appends its
object equals `badCount`. -/
theorem count_offenderContrib (pfx x obj : String) :
    (offenderContrib pfx x).count obj
      = if x = obj then badCount pfx x else 0 := by
  rcases eq_or_ne x obj with rfl | hne
  · by_cases h1 : lengthOK (nameParts x).length
    · by_cases h2 : pyHead (nameParts x) = pfx <;>
        simp [offenderContrib, badCount, h1, h2]
    · by_cases h2 : pyHead (nameParts x) = pfx <;>
        simp [offenderContrib, badCount, h1, h2, List.count_cons]
  · by_cases h1 : lengthOK (nameParts x).length <;>
      by_cases h2 : pyHead (nameParts x) = pfx <;>
        simp [offenderContrib, badCount, h1, h2, List.count_cons, hne]

/-- Each object occurs in the final offender list once per failed
condition, multiplied by its number of occurrences in the selection. -/
theorem wrongNames_count (sel : List String) (pfx obj : String) :
    (wrongNames sel pfx).count obj = sel.count obj * badCount pfx obj := by
  induction sel with
  | nil => simp [wrongNames]
  | cons x rest ih =>
    rw [wrongNames, List.count_append, ih, List.count_cons]
    rw [count_offenderContrib]
    rcases eq_or_ne x obj with rfl | hne
    · simp [Nat.add_mul]
      omega
    · simp [hne]

/-- **C3.** The naming scan appends an object once for a leaf-name token
count outside `{3, 4}` and, independently, once more for a first token
different from the prefix — an object failing both appears exactly twice
(`badCount = 2`, and `count = occurrences × badCount`, so no
deduplication); all objects are scanned, and the check succeeds iff the
offender list is empty, failing once with the full list otherwise. -/
theorem naming_check_c3 (sel : List String) (pfx : String) :
    (∀ obj, (wrongNames sel pfx).count obj = sel.count obj * badCount pfx obj)
    ∧ (∀ obj, ¬ lengthOK (nameParts obj).length →
        pyHead (nameParts obj) ≠ pfx → badCount pfx obj = 2)
    ∧ (∀ scene, lengthOK (pySplit '_' scene).length →
        (MyPublisher_verify_assets scene sel pfx = .ok ()
          ↔ wrongNames sel pfx = [])
        ∧ (wrongNames sel pfx ≠ [] →
            MyPublisher_verify_assets scene sel pfx
              = .error (.naming (wrongNames sel pfx)))) := by
  refine ⟨fun obj => wrongNames_count sel pfx obj, ?_, ?_⟩
  · intro obj h1 h2
    simp [badCount, h1, h2]
  · intro scene hscene
    by_cases hw : wrongNames sel pfx = []
    · have hok : MyPublisher_verify_assets scene sel pfx = .ok () := by
        simp [MyPublisher_verify_assets, hscene, hw]
      simp [hok, hw]
    · have herr : MyPublisher_verify_assets scene sel pfx
          = .error (.naming (wrongNames sel pfx)) := by
        simp [MyPublisher_verify_assets, hscene, hw]
      rw [herr]
      refine ⟨⟨fun hc => (by cases hc), fun hall => absurd hall hw⟩, fun _ => rfl⟩

/-- Witness for C3: `mesh_hero` under prefix `"geo"` has two tokens (bad
count) and a mismatched first token, so it appears exactly twice, and the
check fails once with the duplicated list. -/
theorem naming_check_c3_witness :
    (wrongNames ["mesh_hero"] "geo").count "mesh_hero" = 2
    ∧ MyPublisher_verify_assets "show_seq010_model_v002" ["mesh_hero"] "geo"
        = .error (.naming ["mesh_hero", "mesh_hero"]) := by
  have h := naming_check_c3 ["mesh_hero"] "geo"
  refine ⟨?_, ?_⟩
  · rw [h.1 "mesh_hero"]
    decide
  · exact (h.2.2 "show_seq010_model_v002" (by decide)).2 (by decide)

/-- **C4, counterexample.** The claim says the modeling Verify stage
compares first tokens against the prefix configured at construction, but
`ModelPublisher.verify_assets` executes `self.prefix = "geo"` first: a
publisher constructed with prefix `"abc"` still flags `abc_hero_body`
(token count 3 — allowed — and first token equal to the configured
prefix). -/
theorem modeling_verify_c4_counterexample :
    pyHead (nameParts "abc_hero_body") = "abc"
    ∧ lengthOK (nameParts "abc_hero_body").length = true
    ∧ ModelPublisher_verify_assets "abc" "show_seq010_model_v002"
        ["abc_hero_body"] envAllGood
        = .error (.naming ["abc_hero_body"]) :=
  ⟨rfl, rfl, rfl⟩

/-- **C4, amended.** The modeling Verify stage overwrites the configured
prefix with `"geo"`: its outcome is the same for every construction-time
prefix, and the naming comparison it performs is the base check against
`"geo"` (each object contributing offender entries counted by
`badCount "geo"`). -/
theorem modeling_verify_c4 (ctorPfx scene : String) (sel : List String)
    (env : SceneEnv) :
    ModelPublisher_verify_assets ctorPfx scene sel env
      = ModelPublisher_verify_assets "geo" scene sel env
    ∧ (∀ obj, (wrongNames sel "geo").count obj
        = sel.count obj * badCount "geo" obj) :=
  ⟨rfl, fun obj => wrongNames_count sel "geo" obj⟩

/-- **C1, counterexample.** The claim (with the spec) places the asset
directory at `{root}/assets/{sceneName}/modeling/` for a root two levels
above the directory containing the scene, promising
`project/assets/show_seq010_model_v002/modeling/` for the example path —
but the code uses `Path(scene_path).parents[1]`, only one level above the
containing directory, producing
`project/scenes/assets/show_seq010_model_v002/modeling/`. -/
theorem extract_c1_counterexample :
    (ModelPublisher_extract_assets
        "project/scenes/seq010/show_seq010_model_v002.ma").asset_dir
      = "project/scenes/assets/show_seq010_model_v002/modeling/"
    ∧ (ModelPublisher_extract_assets
        "project/scenes/seq010/show_seq010_model_v002.ma").asset_dir
      ≠ "project/assets/show_seq010_model_v002/modeling/"
    ∧ (ModelPublisher_extract_assets
        "project/scenes/seq010/show_seq010_model_v002.ma").version
      = "v002" := by
  refine ⟨rfl, ?_, rfl⟩
  decide

/-- **C1, amended.** The Extract stage derives version as the substring
after the final underscore of the scene name (the basename cut at its
first dot), and the asset directory as `{root}/assets/{sceneName}/modeling/`
where root is `parents[1]` of the scene path — the parent of the directory
containing the scene, i.e. two levels above the scene file itself —
yielding `project/scenes/assets/show_seq010_model_v002/modeling/` for the
example; directory creation (`exist_ok=True`) is idempotent and total. -/
theorem extract_c1 (scene_path : String) :
    (ModelPublisher_extract_assets scene_path).scene_name
      = pyHead (pySplit '.' (basename scene_path))
    ∧ (ModelPublisher_extract_assets scene_path).version
      = pyLast (pySplit '_' (ModelPublisher_extract_assets scene_path).scene_name)
    ∧ (ModelPublisher_extract_assets scene_path).asset_dir
      = pathJoin (parents1 scene_path)
          ("assets/" ++ (ModelPublisher_extract_assets scene_path).scene_name
            ++ "/modeling/")
    ∧ (∀ dirs d, makedirs (makedirs dirs d) d = makedirs dirs d)
    ∧ (ModelPublisher_extract_assets
        "project/scenes/seq010/show_seq010_model_v002.ma")
      = { scene_name := "show_seq010_model_v002", version := "v002",
          asset_dir := "project/scenes/assets/show_seq010_model_v002/modeling/",
          obj_path :=
            "project/scenes/assets/show_seq010_model_v002/modeling/show_seq010_model_v002" } := by
  refine ⟨rfl, rfl, rfl, ?_, rfl⟩
  intro dirs d
  by_cases h : d ∈ dirs
  · simp [makedirs, h]
  · simp [makedirs, h]

/-- **C2.** For every non-empty selection, `MyPublisher.main` on a
`ModelPublisher` never completes the Verify stage: the call
`self.verify_assets(self.prefix)` passes one positional argument to
`ModelPublisher.verify_assets`, which accepts none, so a `TypeError` is
raised at that call (before the verify body, and before Extract and
Implement can run — only Collect completes); moreover
`self.extract_assets()` would equally be rejected, since
`ModelPublisher.extract_assets` requires its `output` argument. -/
theorem main_c2 (ctorPfx : String) (sel : List String) (sceneFile : String)
    (env : SceneEnv) (hsel : sel ≠ []) :
    MyPublisher_main ctorPfx sel sceneFile env
      = (.typeErrorAt .verify, [.collect])
    ∧ acceptsArgs ModelPublisher_verify_assets_sig 1 = false
    ∧ acceptsArgs ModelPublisher_extract_assets_sig 0 = false := by
  refine ⟨?_, rfl, rfl⟩
  unfold MyPublisher_main MyPublisher_collect_assets
  rw [if_neg (by simp [List.isEmpty_iff, hsel])]
  rfl

/-- Witness for C2: a concrete one-object selection in a healthy scene
still ends in a `TypeError` at the verify call, with only Collect done. -/
theorem main_c2_witness :
    MyPublisher_main "geo" ["geo_hero_body"] "show_seq010_model_v002.ma"
        envAllGood
      = (.typeErrorAt .verify, [.collect]) :=
  (main_c2 "geo" ["geo_hero_body"] "show_seq010_model_v002.ma" envAllGood
    (by decide)).1

/-- **C6.** The transform check uses a strict `0.001` tolerance — the
translate channel `(0, 0, 0.0010)` passes while `(0, 0, 0.0011)` fails —
examines channels in the order translate, rotate, scale, records
`"{obj} ({Channel})"` for the first out-of-tolerance channel and skips the
object's remaining channels (the conclusion for a bad translate holds for
every rotate/scale value `env` assigns), continues across all objects, and
fails exactly once at the end with the aggregated list iff any object was
flagged. -/
theorem check_transforms_c6 (env : SceneEnv) (sel : List String) :
    (translateBad (0, 0, tol) = false
      ∧ translateBad (0, 0, mkRat 11 10000) = true)
    ∧ (∀ obj, translateBad (env.translateOf obj) = true →
        badTransform env obj = some (obj ++ " (Translate)"))
    ∧ (∀ obj, translateBad (env.translateOf obj) = false →
        rotateBad (env.rotateOf obj) = true →
        badTransform env obj = some (obj ++ " (Rotate)"))
    ∧ (∀ obj, translateBad (env.translateOf obj) = false →
        rotateBad (env.rotateOf obj) = false →
        scaleBad (env.scaleOf obj) = true →
        badTransform env obj = some (obj ++ " (Scale)"))
    ∧ (check_transforms env sel = .ok ()
        ↔ ∀ obj ∈ sel, badTransform env obj = none)
    ∧ (sel.filterMap (badTransform env) ≠ [] →
        check_transforms env sel
          = .error (.transforms (sel.filterMap (badTransform env)))) := by
  refine ⟨⟨by decide, by decide⟩, ?_, ?_, ?_, ?_, ?_⟩
  · intro obj h
    simp [badTransform, h]
  · intro obj h1 h2
    simp [badTransform, h1, h2]
  · intro obj h1 h2 h3
    simp [badTransform, h1, h2, h3]
  · by_cases hf : sel.filterMap (badTransform env) = []
    · have hok : check_transforms env sel = .ok () := by
        simp [check_transforms, hf]
      simp only [hok, true_iff]
      intro obj hobj
      exact List.filterMap_eq_nil_iff.mp hf obj hobj
    · have herr : check_transforms env sel
          = .error (.transforms (sel.filterMap (badTransform env))) := by
        simp [check_transforms, List.isEmpty_iff, hf]
      rw [herr]
      constructor
      · intro hc; cases hc
      · intro hall
        exact absurd (List.filterMap_eq_nil_iff.mpr hall) hf
  · intro hf
    simp [check_transforms, List.isEmpty_iff, hf]

/-- `envAllGood` except that `"pCube1"` has translate `(0, 0, 0.0011)`. -/
def envBadTranslate : SceneEnv :=
  { envAllGood with
    translateOf := fun obj =>
      if obj = "pCube1" then (0, 0, mkRat 11 10000) else (0, 0, 0) }

/-- Witness for C6: the object with translate `(0, 0, 0.0011)` is recorded
as `"pCube1 (Translate)"` and the check fails once with that list. -/
theorem check_transforms_c6_witness :
    badTransform envBadTranslate "pCube1" = some "pCube1 (Translate)"
    ∧ check_transforms envBadTranslate ["pCube1"]
        = .error (.transforms ["pCube1 (Translate)"]) := by
  have h := check_transforms_c6 envBadTranslate ["pCube1"]
  exact ⟨h.2.1 "pCube1" (by decide), h.2.2.2.2.2 (by decide)⟩

/-- **C9.** A transport failure while posting the Discord notification is
caught inside `discord_notification` and never propagated: the Implement
stage ends in exactly the same successful state as with a delivered
notification, and the metadata record is written at the sidecar path. -/
theorem implement_c9 (scene_name version obj_path user descr : String)
    (now : DateTime) (uuidHex : String) (fs : String → Option String)
    (msg : String) :
    ModelPublisher_implement_assets scene_name version obj_path user descr
        now uuidHex (.requestFailure msg) fs
      = ModelPublisher_implement_assets scene_name version obj_path user descr
          now uuidHex .ok200 fs
    ∧ ∃ fs' data,
        ModelPublisher_implement_assets scene_name version obj_path user descr
            now uuidHex (.requestFailure msg) fs
          = .ok (fs', data)
        ∧ fs' (dbPath obj_path) = some (renderAssetJson data) := by
  refine ⟨rfl, ?_⟩
  refine ⟨_, _, rfl, ?_⟩
  simp [csv_publisher, fsWrite]

/-- A character of `uuid4().hex`: a decimal digit or `a`–`f`. -/
def isLowerHexDigit (c : Char) : Bool :=
  (48 ≤ c.toNat ∧ c.toNat ≤ 57) ∨ (97 ≤ c.toNat ∧ c.toNat ≤ 102)

/-- A character of the `^[0-9A-F]{8}$` pattern: a decimal digit or `A`–`F`. -/
def isUpperHexDigit (c : Char) : Bool :=
  (48 ≤ c.toNat ∧ c.toNat ≤ 57) ∨ (65 ≤ c.toNat ∧ c.toNat ≤ 70)

set_option maxRecDepth 4096 in
/-- Upper-casing a lowercase hex digit yields an uppercase hex digit. -/
theorem pyUpperChar_hex (c : Char) (h : isLowerHexDigit c = true) :
    isUpperHexDigit (pyUpperChar c) = true := by
  have h' := of_decide_eq_true h
  unfold pyUpperChar
  rcases h' with ⟨h1, h2⟩ | ⟨h1, h2⟩
  · rw [if_neg (by omega)]
    exact decide_eq_true (Or.inl ⟨h1, h2⟩)
  · rw [if_pos ⟨h1, by omega⟩]
    obtain ⟨n, hn⟩ : ∃ n, c.toNat = n := ⟨_, rfl⟩
    rw [hn] at h1 h2 ⊢
    interval_cases n <;> decide

/-- `padZero w n` has width exactly `w` when `n` has at most `w` digits. -/
theorem padZero_length (w n : Nat) (hw : 0 < w) (h : n < 10 ^ w) :
    (padZero w n).length = w := by
  have hr : (Nat.repr n).length ≤ w := Nat.repr_length n w hw h
  simp only [padZero, String.length_append]
  have : (String.mk (List.replicate (w - (Nat.repr n).length) '0')).length
      = w - (Nat.repr n).length := List.length_replicate _ _
  omega

/-- **C10.** A successful Implement stage produces exactly one record:
its `id` is the first 8 characters of the fresh UUID's lowercase-hex
rendering upper-cased (8 characters matching `^[0-9A-F]{8}$`), its `date`
is the `%Y%m%d-%H%M%S` rendering of the clock (15 characters,
`YYYYMMDD-HHMMSS`, for in-range clock readings), the serialized object has
exactly the fields id, date, name, version, path, user, description in
that order rendered with 4-space indentation, and the only write is the
sidecar at the export base path with its extension stripped and
`_metadata.json` appended. -/
theorem implement_c10 (scene_name version obj_path user descr : String)
    (now : DateTime) (uuidHex : String) (transport : TransportOutcome)
    (fs : String → Option String)
    (hlen : uuidHex.toList.length = 32)
    (hhex : ∀ c ∈ uuidHex.toList, isLowerHexDigit c = true) :
    ∃ fs' data,
      ModelPublisher_implement_assets scene_name version obj_path user descr
          now uuidHex transport fs
        = .ok (fs', data)
      ∧ data.id.toList.length = 8
      ∧ (∀ c ∈ data.id.toList, isUpperHexDigit c = true)
      ∧ data.date = strftimeYmdHMS now
      ∧ (assetDataPairs data).map Prod.fst
          = ["id", "date", "name", "version", "path", "user", "description"]
      ∧ renderAssetJson data
          = "\x7b\n" ++ pyJoin ",\n" ((assetDataPairs data).map jsonField)
            ++ "\n\x7d"
      ∧ fs' = fsWrite fs (dbPath obj_path) (renderAssetJson data)
      ∧ dbPath obj_path = withSuffixEmpty obj_path ++ "_metadata.json"
      ∧ (now.year < 10 ^ 4 → now.month < 10 ^ 2 → now.day < 10 ^ 2 →
          now.hour < 10 ^ 2 → now.minute < 10 ^ 2 → now.second < 10 ^ 2 →
          (strftimeYmdHMS now).length = 15) := by
  have hid : (uniqueHash uuidHex).toList
      = (uuidHex.toList.take 8).map pyUpperChar := rfl
  have hcase : ∀ t : TransportOutcome,
      ModelPublisher_implement_assets scene_name version obj_path user descr
          now uuidHex t fs
        = .ok (fsWrite fs (dbPath obj_path)
            (renderAssetJson
              { id := uniqueHash uuidHex, date := strftimeYmdHMS now,
                name := scene_name, version := version, path := obj_path,
                user := user, description := descr }),
            { id := uniqueHash uuidHex, date := strftimeYmdHMS now,
              name := scene_name, version := version, path := obj_path,
              user := user, description := descr }) := by
    intro t; cases t <;> rfl
  refine ⟨_, _, hcase transport, ?_, ?_, rfl, rfl, rfl, rfl, rfl, ?_⟩
  · rw [hid, List.length_map, List.length_take, hlen]
    decide
  · intro c hc
    rw [hid] at hc
    obtain ⟨d, hd, rfl⟩ := List.mem_map.mp hc
    exact pyUpperChar_hex d (hhex d (List.mem_of_mem_take hd))
  · intro hy hmo hd hh hmi hs
    simp only [strftimeYmdHMS, String.length_append]
    rw [padZero_length 4 now.year (by norm_num) hy,
      padZero_length 2 now.month (by norm_num) hmo,
      padZero_length 2 now.day (by norm_num) hd,
      padZero_length 2 now.hour (by norm_num) hh,
      padZero_length 2 now.minute (by norm_num) hmi,
      padZero_length 2 now.second (by norm_num) hs]
    rfl

/-- Witness for C10 at a concrete UUID, clock reading and file system. -/
theorem implement_c10_witness :
    ∃ fs' data,
      ModelPublisher_implement_assets "show_seq010_model_v002" "v002"
          "project/scenes/assets/show_seq010_model_v002/modeling/show_seq010_model_v002"
          "alex" "" ⟨2026, 10, 12, 9, 30, 5⟩
          "0123456789abcdef0123456789abcdef" .ok200 (fun _ => none)
        = .ok (fs', data)
      ∧ data.id.toList.length = 8
      ∧ (∀ c ∈ data.id.toList, isUpperHexDigit c = true)
      ∧ data.date = strftimeYmdHMS ⟨2026, 10, 12, 9, 30, 5⟩ :=
  match implement_c10 "show_seq010_model_v002" "v002"
      "project/scenes/assets/show_seq010_model_v002/modeling/show_seq010_model_v002"
      "alex" "" ⟨2026, 10, 12, 9, 30, 5⟩
      "0123456789abcdef0123456789abcdef" .ok200 (fun _ => none)
      (by decide) (by decide) with
  | ⟨fs', data, h1, h2, h3, h4, _⟩ => ⟨fs', data, h1, h2, h3, h4⟩

end Publishing
